import Mathlib

/-!
Shallow embedding of `src/dist/script.js`, the "Going to Quasar" generative-art
sketch: a scene generator (`init`) building arcs, planets and stars from random
draws, and a per-frame renderer (`draw`) that advances angles and emits drawing
calls.

Modelling conventions:
* Every JavaScript float produced by `random()` is a rational number, so the
  underlying uniform draws are modelled as `ℚ` values in `[0,1)`; derived
  quantities that involve `π` or trigonometric functions live in `ℝ`.
* `random(lo, hi)` is `lo + u*(hi-lo)` for a draw `u ∈ [0,1)`; `random(hi)` is
  `u*hi`; bare `random()` is `u` itself.
* The one place JavaScript arithmetic leaves the reals is `1/(TAU*radius)` at a
  zero radius bucket, which evaluates to `Infinity`; arc lengths are therefore
  `WithTop ℝ`, with `⊤` standing for `Infinity`.
* JavaScript `%` is the remainder taking the dividend's sign (`x - trunc(x/y)*y`),
  not the non-negative mathematical residue; `jsMod1` models `x % 1`.
-/

namespace Quasar

/-- src line 68: `let numArcs = 2000`. -/
def numArcs : ℕ := 2000

/-- src line 69: `let zoomScale = 3`. -/
def zoomScale : ℚ := 3

/-- p5's `constrain(n, low, high)`: clamp `n` into `[lo, hi]` (src line 101). -/
def constrain (x lo hi : ℚ) : ℚ := max lo (min x hi)

/-- src line 80: `rInt = (b, a=0) => floor(random(min(a, b), max(a, b)))` where
`random(lo, hi) = lo + u*(hi-lo)` for the uniform draw `u`. -/
def rInt (u b a : ℚ) : ℤ := ⌊min a b + u * (max a b - min a b)⌋

/-- JavaScript truncation toward zero, the integer chopped off by the `%`
operator: `⌊x⌋` for non-negative `x`, `⌈x⌉` for negative `x`. -/
noncomputable def jsTrunc (x : ℝ) : ℤ := if 0 ≤ x then ⌊x⌋ else ⌈x⌉

/-- JavaScript remainder `x % 1 = x - trunc(x)`; it has the sign of `x`,
so it lies in `(-1, 0]` for negative `x` and in `[0, 1)` for non-negative `x`. -/
noncomputable def jsMod1 (x : ℝ) : ℝ := x - jsTrunc x

/-- src line 94: `window.colorMap = (amt, hueShift=0) =>
[(baseHue+amt*hueRange+hueShift)%1, amt, 1-amt]`.
The scene-level captures `baseHue` and `hueRange` are explicit arguments here. -/
noncomputable def colorMap (baseHue hueRange amt hueShift : ℝ) : ℝ × ℝ × ℝ :=
  (jsMod1 (baseHue + amt * hueRange + hueShift), amt, 1 - amt)

/-- src line 88: `window.radius = min(width, height)*.45`. -/
def radius (width height : ℚ) : ℚ := min width height * (45/100)

/-- src line 89: `window.arcSize = radius/numCircles`. -/
def arcSize (width height : ℚ) (numCircles : ℕ) : ℚ :=
  radius width height / numCircles

/-- One arc object (src lines 103-109).  `len` is `WithTop ℝ` because the
sliver branch `1/(TAU*radius)` yields JavaScript `Infinity` when the radius
bucket is `0`. -/
structure Arc where
  col : ℝ × ℝ × ℝ
  len : WithTop ℝ
  angle : ℝ
  radius : ℚ
  speed : ℚ

/-- One planet object (src lines 120-126).  `target` is `none` for the scene
center and `some j` for the planet at index `j` of the planet list;
`x`/`y` are the derived positions (re)assigned on every tick, initialised to
`0` here (the source leaves them undefined until the first frame, and no code
reads them before that first assignment). -/
structure Planet where
  hue : ℚ
  len : ℚ
  angle : ℝ
  radius : ℚ
  speed : ℚ
  target : Option ℕ
  x : ℝ
  y : ℝ

/-- One star object (src lines 129-137); all fields are plain float draws. -/
structure Star where
  x : ℚ
  y : ℚ
  size : ℚ
  hue : ℚ
  sat : ℚ
  idx : ℚ
  speed : ℚ

/-- The uniform draws consumed by one iteration of the arc loop
(src lines 98-110), each in `[0,1)`. -/
structure ArcRand where
  rBucket : ℚ
  rNoise : ℚ
  rCoin : ℚ
  rLen : ℚ
  rAngle : ℚ
  rSpeed : ℚ
  rSign : ℚ

/-- src line 99: `let radius = rInt(numCircles)` — the arc's radius bucket. -/
def arcBucket (numCircles : ℕ) (u : ℚ) : ℤ := rInt u (numCircles : ℚ) 0

/-- One iteration of the arc loop, src lines 98-109.  The bucket is the shadowed
local `radius`; `random(-variance, variance) = -variance + u*2*variance`;
`len` models `random() < .2 ? 1/(TAU*radius) : random(PI/2)`, where JavaScript
division `1/(TAU*0)` gives `Infinity` (`⊤`) — for a nonzero bucket `b` it is the
real `1/(2π·b)`; `speed` is `random(0,.3)*(random()<.5 ? 1 : -1)*.02`. -/
noncomputable def genArc (numCircles : ℕ) (arcSize variance baseHue hueRange : ℚ)
    (r : ArcRand) : Arc :=
  let b : ℤ := arcBucket numCircles r.rBucket
  let amt : ℚ := constrain ((b : ℚ) / (numCircles : ℚ) +
    (-variance + r.rNoise * (2 * variance))) 0 1
  { col := colorMap (baseHue : ℝ) (hueRange : ℝ) (amt : ℝ) 0
    len :=
      if r.rCoin < 1/5 then
        (if b = 0 then (⊤ : WithTop ℝ)
         else ((1 / (2 * Real.pi * (b : ℝ)) : ℝ) : WithTop ℝ))
      else (((r.rLen : ℝ) * (Real.pi / 2) : ℝ) : WithTop ℝ)
    angle := (r.rAngle : ℝ) * (2 * Real.pi)
    radius := (b : ℚ) * arcSize
    speed := r.rSpeed * (3/10) * (if r.rSign < 1/2 then 1 else -1) * (2/100) }

/-- The descending-length order used by the sort comparator on src line 112:
`(a, b) => b.len - a.len` orders `a` before `b` exactly when `b.len ≤ a.len`
(ties, including two `Infinity` lengths whose difference is `NaN`, compare
as equal). -/
def lenGE (a b : Arc) : Prop := b.len ≤ a.len

noncomputable instance : DecidableRel lenGE :=
  fun a b => inferInstanceAs (Decidable (b.len ≤ a.len))

instance : IsTotal Arc lenGE := ⟨fun a b => le_total b.len a.len⟩

instance : IsTrans Arc lenGE := ⟨fun _ _ _ h1 h2 => le_trans h2 h1⟩

/-- src line 112: `arcs = arcs.sort((a, b) => b.len-a.len)`.  JavaScript's
`Array.prototype.sort` with a consistent comparator produces a list sorted by
that comparator; it is modelled by insertion sort with `lenGE`. -/
noncomputable def sortLen (l : List Arc) : List Arc := l.insertionSort lenGE

/-- The uniform draws consumed by one iteration of the planet loop
(src lines 115-127), each in `[0,1)`. -/
structure PlanetRand where
  rTargetCoin : ℚ
  rTargetIdx : ℚ
  rLen : ℚ
  rAngle : ℚ
  rRadius : ℚ
  rSpeed : ℚ
  rHue : ℚ

/-- One iteration of the planet loop, src lines 115-126, given the list `ps` of
planets generated so far.  Despite its name, the source's local `targetCenter`
is true when the planet targets an existing planet: it is
`(planets.length > 0) && (random() < .5)`; the chosen target index is
`rInt(0, planets.length)`.  `target.len` is read through `List.get?` with a
default of `0` for out-of-range indices (unreachable for in-range draws). -/
noncomputable def genPlanet (sceneRadius centerLen : ℚ) (numPlanets : ℕ)
    (ps : List Planet) (i : ℕ) (r : PlanetRand) : Planet :=
  let targetCenter : Bool := 0 < ps.length ∧ r.rTargetCoin < 1/2
  let tIdx : ℕ := (rInt r.rTargetIdx 0 (ps.length : ℚ)).toNat
  let targetLen : ℚ :=
    if targetCenter then (((ps.get? tIdx).map Planet.len).getD 0) else centerLen
  let len : ℚ := (1/2 + r.rLen * (1/5)) * targetLen
  { hue := -(3/20) + r.rHue * (3/10)
    len := len
    angle := (r.rAngle : ℝ) * (2 * Real.pi)
    radius :=
      if targetCenter then r.rRadius * (targetLen / 4) + (len + targetLen) / 2
      else r.rRadius * (sceneRadius / (numPlanets : ℚ)) +
        sceneRadius * (((i : ℚ) / (numPlanets : ℚ)) * (7/10) + 3/10)
    speed := (1/5 + r.rSpeed * (3/10)) * (5/1000)
    target := if targetCenter then some tIdx else none
    x := 0
    y := 0 }

/-- The planet loop `for (let i = 0; i < numPlanets; i++) planets.push(...)`
(src lines 115-127), unrolled structurally: `ps` is the list built so far,
`i` the current index and `fuel` the remaining iterations. -/
noncomputable def genPlanetsAux (sceneRadius centerLen : ℚ) (numPlanets : ℕ)
    (r : ℕ → PlanetRand) (ps : List Planet) (i : ℕ) : ℕ → List Planet
  | 0 => ps
  | fuel + 1 =>
    genPlanetsAux sceneRadius centerLen numPlanets r
      (ps ++ [genPlanet sceneRadius centerLen numPlanets ps i (r i)]) (i + 1) fuel

/-- The full planet loop, src lines 114-127. -/
noncomputable def genPlanets (sceneRadius centerLen : ℚ) (numPlanets : ℕ)
    (r : ℕ → PlanetRand) : List Planet :=
  genPlanetsAux sceneRadius centerLen numPlanets r [] 0 numPlanets

/-- The uniform draws consumed by one iteration of the star loop
(src lines 129-137), each in `[0,1)`. -/
structure StarRand where
  rx : ℚ
  ry : ℚ
  rSize : ℚ
  rHue : ℚ
  rSat : ℚ
  rIdx : ℚ
  rSpeed : ℚ

/-- One star, src lines 129-137.  `random(.1, .01)` has its bounds reversed in
the source, so p5 evaluates it as `.1 + u*(.01-.1)`. -/
def genStar (width height baseHue : ℚ) (r : StarRand) : Star :=
  { x := r.rx * width
    y := r.ry * height
    size := 2 + r.rSize * 3
    hue := (-(2/10) + r.rHue * (4/10)) + baseHue
    sat := r.rSat * (7/10)
    idx := r.rIdx * 10000000
    speed := 1/10 + r.rSpeed * (1/100 - 1/10) }

/-- The complete scene state built by `init` (src lines 82-138). -/
structure Scene where
  numCircles : ℕ
  arcSize : ℚ
  sceneRadius : ℚ
  baseHue : ℚ
  hueRange : ℚ
  arcs : List Arc
  planets : List Planet
  stars : List Star

/-- All uniform draws consumed by one invocation of `init`. -/
structure InitRand where
  uNumCircles : ℚ
  uBaseHue : ℚ
  uHueMag : ℚ
  uHueSign : ℚ
  uVariance : ℚ
  arcR : ℕ → ArcRand
  uNumPlanets : ℚ
  planetR : ℕ → PlanetRand
  starR : ℕ → StarRand

/-- src line 87: `window.numCircles = rInt(70, 120)`. -/
def numCirclesOf (ρ : InitRand) : ℕ := (rInt ρ.uNumCircles 70 120).toNat

/-- src line 93: `window.hueRange = random(.2, .7)*(random() < .5 ? -1 : 1)`. -/
def hueRangeOf (ρ : InitRand) : ℚ :=
  (2/10 + ρ.uHueMag * (5/10)) * (if ρ.uHueSign < 1/2 then -1 else 1)

/-- src line 96: `let variance = random(.05, .4)`. -/
def varianceOf (ρ : InitRand) : ℚ := 5/100 + ρ.uVariance * (4/10 - 5/100)

/-- src line 114: `let numPlanets = rInt(2, 7)`. -/
def numPlanetsOf (ρ : InitRand) : ℕ := (rInt ρ.uNumPlanets 2 7).toNat

/-- src lines 98-112: the 2000-iteration arc loop followed by the
descending-length sort. -/
noncomputable def initArcs (width height : ℚ) (ρ : InitRand) : List Arc :=
  sortLen ((List.range numArcs).map (fun i =>
    genArc (numCirclesOf ρ) (arcSize width height (numCirclesOf ρ))
      (varianceOf ρ) ρ.uBaseHue (hueRangeOf ρ) (ρ.arcR i)))

/-- src lines 114-127: the planet loop; the center pseudo-target has
`len = radius/2` (src line 90). -/
noncomputable def initPlanets (width height : ℚ) (ρ : InitRand) : List Planet :=
  genPlanets (radius width height) (radius width height / 2)
    (numPlanetsOf ρ) ρ.planetR

/-- src lines 129-137: the 1000-iteration star loop. -/
def initStars (width height : ℚ) (ρ : InitRand) : List Star :=
  (List.range 1000).map (fun i => genStar width height ρ.uBaseHue (ρ.starR i))

/-- src lines 82-138: the scene generator.  `numCircles = rInt(70, 120)`;
`baseHue = random()`; `hueRange = random(.2,.7)*(random()<.5 ? -1 : 1)`;
`variance = random(.05,.4)`; 2000 arcs are generated and sorted by descending
length; `numPlanets = rInt(2, 7)` planets and exactly 1000 stars follow. -/
noncomputable def init (width height : ℚ) (ρ : InitRand) : Scene :=
  { numCircles := numCirclesOf ρ
    arcSize := arcSize width height (numCirclesOf ρ)
    sceneRadius := radius width height
    baseHue := ρ.uBaseHue
    hueRange := hueRangeOf ρ
    arcs := initArcs width height ρ
    planets := initPlanets width height ρ
    stars := initStars width height ρ }

/-- The pointer state read by `draw`: `mouseDown`, `mouseX`, `mouseY`. -/
structure Pointer where
  down : Bool
  x : ℚ
  y : ℚ

/-- One drawing-surface call issued by `draw`; parameters are recorded as the
source passes them.  `arcStroke`'s `stop` is `angle + len`, which is `⊤`
(Infinity) for a sliver arc of infinite length. -/
inductive DrawOp where
  | background (c : ℚ)
  | translate (x y : ℝ)
  | scaleBy (k : ℚ)
  | push
  | pop
  | noStroke
  | noFill
  | blendAdd
  | fill (c : ℝ × ℝ × ℝ)
  | stroke3 (h s b : ℝ)
  | stroke4 (c : ℝ × ℝ × ℝ) (alpha : ℚ)
  | strokeWeight (w : ℚ)
  | line (x1 y1 x2 y2 : ℚ)
  | ellipse3 (x y d : ℚ)
  | ellipse4 (x y w h : ℝ)
  | rotate (a : ℝ)
  | arcStroke (x y w h start : ℝ) (stop : WithTop ℝ)

/-- The ring indices of the background loop, src line 153:
`for (let i = numCircles; i >= 0; i--)` — `numCircles` down to `0`. -/
def ringIndices (numCircles : ℕ) : List ℕ := (List.range (numCircles + 1)).reverse

/-- The fill color and ellipse diameter of each background ring, in draw order
(src lines 153-156): index `i` gets `colorMap((i/numCircles)*.9)` and diameter
`i*arcSize*2`. -/
noncomputable def ringCalls (numCircles : ℕ) (arcSize baseHue hueRange : ℚ) :
    List ((ℝ × ℝ × ℝ) × ℚ) :=
  (ringIndices numCircles).map (fun (i : ℕ) =>
    (colorMap (baseHue : ℝ) (hueRange : ℝ)
      (((i : ℝ) / (numCircles : ℝ)) * (9/10)) 0, (i : ℚ) * arcSize * 2))

/-- The per-star calls of src lines 161-166: luminance from
`noise(s.idx, s.idx + frameCount*s.speed)`, then a stroke and two lines forming
a plus shape. -/
noncomputable def starOps (noise : ℚ → ℚ → ℝ) (frameCount : ℕ) (s : Star) :
    List DrawOp :=
  let lum : ℝ := noise s.idx (s.idx + (frameCount : ℚ) * s.speed)
  [DrawOp.stroke3 (s.hue : ℝ) (s.sat : ℝ) (lum * (7/10)),
   DrawOp.line (s.x - s.size / 2) s.y (s.x + s.size / 2) s.y,
   DrawOp.line s.x (s.y - s.size / 2) s.x (s.y + s.size / 2)]

/-- src line 173: `o.angle += o.speed` for an arc. -/
noncomputable def tickArc (a : Arc) : Arc :=
  { a with angle := a.angle + (a.speed : ℝ) }

/-- The drawing calls for one (already advanced) arc, src lines 174-175. -/
noncomputable def arcOps (a : Arc) : List DrawOp :=
  [DrawOp.stroke4 a.col (1/2),
   DrawOp.arcStroke 0 0 ((a.radius : ℝ) * 2) ((a.radius : ℝ) * 2) a.angle
     (((a.angle : ℝ) : WithTop ℝ) + a.len)]

/-- src lines 179-181 for one planet: advance the angle by the speed and derive
the position from the target's position (the scene center at `(0,0)` when
`target` is `none`); `done` is the list of planets already advanced this tick,
so an earlier target's freshly updated position is used. -/
noncomputable def tickPlanet (done : List Planet) (p : Planet) : Planet :=
  let a : ℝ := p.angle + (p.speed : ℝ)
  let tx : ℝ := match p.target with
    | none => 0
    | some j => ((done.get? j).map Planet.x).getD 0
  let ty : ℝ := match p.target with
    | none => 0
    | some j => ((done.get? j).map Planet.y).getD 0
  { p with
    angle := a
    x := Real.cos a * (p.radius : ℝ) + tx
    y := Real.sin a * (p.radius : ℝ) + ty }

/-- The in-place planet update loop of src lines 178-181, unrolled: `done` is
the prefix already advanced this tick. -/
noncomputable def tickPlanetsAux (done : List Planet) : List Planet → List Planet
  | [] => done
  | p :: rest => tickPlanetsAux (done ++ [tickPlanet done p]) rest

/-- All planets advanced one tick, in generation order. -/
noncomputable def tickPlanets (ps : List Planet) : List Planet :=
  tickPlanetsAux [] ps

/-- The drawing calls for one (already advanced) planet, src lines 183-196:
rotate by `atan2(o.y, o.x)` (modelled by `Complex.arg`), then the nested
ellipse scan `for (let i = o.len; i >= 0; i -= mouseDown ? 2/zoomScale : 2)`
with `amt = i/o.len`, `percent = 1 - (hypot(o.x,o.y)/radius)*.4` and
`amt2 = (1-amt^5)*percent + (1-percent)`. -/
noncomputable def planetOps (m : Pointer) (sceneRadius baseHue hueRange : ℚ)
    (p : Planet) : List DrawOp :=
  let step : ℚ := if m.down then 2 / zoomScale else 2
  let percent : ℝ :=
    1 - (Real.sqrt (p.x ^ 2 + p.y ^ 2) / (sceneRadius : ℝ)) * (4/10)
  let steps : ℕ := (⌊p.len / step⌋ + 1).toNat
  [DrawOp.push, DrawOp.translate p.x p.y,
   DrawOp.rotate (Complex.arg ⟨p.x, p.y⟩), DrawOp.noStroke] ++
  ((List.range steps).foldr (fun k acc =>
    let iv : ℚ := p.len - (k : ℚ) * step
    let amt : ℚ := iv / p.len
    let amt2 : ℝ := (1 - (amt : ℝ) ^ 5) * percent + (1 - percent)
    DrawOp.fill (colorMap (baseHue : ℝ) (hueRange : ℝ) amt2 (p.hue : ℝ)) ::
    DrawOp.ellipse4 (-((p.len : ℝ) * (amt : ℝ)) / 2 + (p.len : ℝ) / 2 - 1) 0
      ((p.len : ℝ) * (amt : ℝ))
      (Real.sin ((amt : ℝ) * Real.pi / 2) * (p.len : ℝ)) :: acc) []) ++
  [DrawOp.pop]

/-- src lines 140-199: one frame.  Inputs: the deterministic noise field, the
canvas size, the frame counter, the pointer state and the scene.  Output: the
sequence of drawing calls issued and the post-tick scene (arcs and planets
advanced, everything else untouched). -/
noncomputable def draw (noise : ℚ → ℚ → ℝ) (width height : ℚ) (frameCount : ℕ)
    (m : Pointer) (s : Scene) : List DrawOp × Scene :=
  let arcsTicked : List Arc := s.arcs.map tickArc
  let planetsTicked : List Planet := tickPlanets s.planets
  let ops : List DrawOp :=
    [DrawOp.background 0] ++
    (if m.down then
      [DrawOp.translate ((width : ℝ) / 2) ((height : ℝ) / 2),
       DrawOp.scaleBy zoomScale,
       DrawOp.translate (-(m.x : ℝ)) (-(m.y : ℝ))]
     else []) ++
    [DrawOp.push, DrawOp.translate ((width : ℝ) / 2) ((height : ℝ) / 2),
     DrawOp.noStroke] ++
    ((ringCalls s.numCircles s.arcSize s.baseHue s.hueRange).foldr
      (fun rc acc => DrawOp.fill rc.1 :: DrawOp.ellipse3 0 0 rc.2 :: acc) []) ++
    [DrawOp.push, DrawOp.translate (-((width : ℝ) / 2)) (-((height : ℝ) / 2)),
     DrawOp.blendAdd] ++
    (s.stars.foldr (fun st acc => starOps noise frameCount st ++ acc) []) ++
    [DrawOp.pop, DrawOp.noFill, DrawOp.strokeWeight s.arcSize] ++
    (arcsTicked.foldr (fun a acc => arcOps a ++ acc) []) ++
    (planetsTicked.foldr (fun p acc =>
      planetOps m s.sceneRadius s.baseHue s.hueRange p ++ acc) []) ++
    [DrawOp.pop]
  (ops, { s with arcs := arcsTicked, planets := planetsTicked })

/-- The planet's target is generated strictly before position `i`:
either the scene center (`none`) or an index `j < i`. -/
def targetBefore (p : Planet) (i : ℕ) : Prop :=
  p.target = none ∨ ∃ j, p.target = some j ∧ j < i

/-- Following `target` links from the planet at index `i` reaches the scene
center within `fuel` steps: `none` (the center) terminates the walk. -/
def chainToCenter (ps : List Planet) : ℕ → ℕ → Bool
  | 0, i => ((ps.get? i).bind Planet.target).isNone
  | fuel + 1, i =>
    match (ps.get? i).bind Planet.target with
    | none => true
    | some j => chainToCenter ps fuel j

/-- A fixed all-zeros draw for one arc, used to instantiate theorems. -/
def zeroArcRand : ArcRand := ⟨0, 0, 0, 0, 0, 0, 0⟩

/-- A fixed all-zeros draw for one planet, used to instantiate theorems. -/
def zeroPlanetRand : PlanetRand := ⟨0, 0, 0, 0, 0, 0, 0⟩

/-- A fixed random tape for `init` with every underlying draw equal to `0`. -/
def sampleRand : InitRand :=
  { uNumCircles := 0
    uBaseHue := 0
    uHueMag := 0
    uHueSign := 0
    uVariance := 0
    arcR := fun _ => zeroArcRand
    uNumPlanets := 0
    planetR := fun _ => zeroPlanetRand
    starR := fun _ => ⟨0, 0, 0, 0, 0, 0, 0⟩ }

/-- A small concrete scene used to instantiate theorems about `draw`. -/
noncomputable def sampleScene : Scene :=
  { numCircles := 1
    arcSize := 1
    sceneRadius := 1
    baseHue := 0
    hueRange := 0
    arcs := [{ col := (0, 0, 0), len := 0, angle := 0, radius := 0, speed := 0 }]
    planets := [{ hue := 0, len := 0, angle := 0, radius := 0, speed := 0,
                  target := none, x := 0, y := 0 }]
    stars := [{ x := 0, y := 0, size := 0, hue := 0, sat := 0, idx := 0,
                speed := 0 }] }

/-! ### Helper lemmas about the random-range primitives -/

theorem le_rInt (u b a : ℚ) (lo : ℤ) (hlo : (lo : ℚ) = min a b) (h0 : 0 ≤ u) :
    lo ≤ rInt u b a := by
  refine Int.le_floor.mpr ?_
  rw [hlo]
  have hnn : 0 ≤ u * (max a b - min a b) :=
    mul_nonneg h0 (sub_nonneg.mpr (min_le_max))
  linarith

theorem rInt_lt (u b a : ℚ) (hi : ℤ) (hhi : (hi : ℚ) = max a b)
    (hlt : min a b < max a b) (h0 : 0 ≤ u) (h1 : u < 1) : rInt u b a < hi := by
  refine Int.floor_lt.mpr ?_
  rw [hhi]
  have h2 : u * (max a b - min a b) < 1 * (max a b - min a b) :=
    mul_lt_mul_of_pos_right h1 (by linarith)
  linarith

theorem arcBucket_nonneg (numCircles : ℕ) (u : ℚ) (h0 : 0 ≤ u) :
    0 ≤ arcBucket numCircles u := by
  refine le_rInt u (numCircles : ℚ) 0 0 ?_ h0
  rw [min_eq_left (by positivity : (0:ℚ) ≤ (numCircles : ℚ))]
  norm_num

theorem arcBucket_lt (numCircles : ℕ) (hnc : 0 < numCircles) (u : ℚ)
    (h0 : 0 ≤ u) (h1 : u < 1) : arcBucket numCircles u < numCircles := by
  refine rInt_lt u (numCircles : ℚ) 0 (numCircles : ℤ) ?_ ?_ h0 h1
  · rw [max_eq_right (by positivity : (0:ℚ) ≤ (numCircles : ℚ))]
    norm_num
  · rw [min_eq_left (by positivity : (0:ℚ) ≤ (numCircles : ℚ)),
      max_eq_right (by positivity : (0:ℚ) ≤ (numCircles : ℚ))]
    exact_mod_cast hnc

/-! ### Helper lemmas about the JavaScript remainder -/

theorem jsMod1_of_nonneg (x : ℝ) (h : 0 ≤ x) : jsMod1 x = Int.fract x := by
  rw [jsMod1, jsTrunc, if_pos h, Int.fract]

theorem jsMod1_lt_one (x : ℝ) : jsMod1 x < 1 := by
  rw [jsMod1, jsTrunc]
  split
  · have := Int.sub_one_lt_floor x
    have := Int.fract_lt_one x
    rw [Int.fract] at this
    linarith
  · have h1 : x ≤ (⌈x⌉ : ℝ) := Int.le_ceil x
    linarith

theorem neg_one_lt_jsMod1 (x : ℝ) : -1 < jsMod1 x := by
  rw [jsMod1, jsTrunc]
  split
  · have h1 : (⌊x⌋ : ℝ) ≤ x := Int.floor_le x
    linarith
  · have h1 : (⌈x⌉ : ℝ) < x + 1 := Int.ceil_lt_add_one x
    linarith

/-! ### Scene-generator projections -/

theorem init_arcs_def (w h : ℚ) (ρ : InitRand) :
    (init w h ρ).arcs = initArcs w h ρ := by unfold init; with_reducible rfl

theorem init_planets_def (w h : ℚ) (ρ : InitRand) :
    (init w h ρ).planets = initPlanets w h ρ := by unfold init; with_reducible rfl

theorem init_stars_def (w h : ℚ) (ρ : InitRand) :
    (init w h ρ).stars = initStars w h ρ := by unfold init; with_reducible rfl

theorem init_arcs_length (w h : ℚ) (ρ : InitRand) :
    (init w h ρ).arcs.length = numArcs := by
  rw [init_arcs_def, initArcs, sortLen, List.length_insertionSort,
    List.length_map, List.length_range]

theorem sortLen_sorted (l : List Arc) : (sortLen l).Sorted lenGE :=
  List.sorted_insertionSort lenGE l

theorem sample_arcs_one_lt : 1 < (init 800 600 sampleRand).arcs.length := by
  rw [init_arcs_length]
  norm_num [numArcs]

theorem ringCalls_length (numCircles : ℕ) (as bh hr : ℚ) :
    (ringCalls numCircles as bh hr).length = numCircles + 1 := by
  rw [ringCalls, List.length_map, ringIndices, List.length_reverse,
    List.length_range]

theorem ringCalls_get (numCircles : ℕ) (as bh hr : ℚ) (k : ℕ)
    (hk : k ≤ numCircles) :
    (ringCalls numCircles as bh hr).get? k =
      some (colorMap (bh : ℝ) (hr : ℝ)
        ((((numCircles - k : ℕ) : ℝ) / (numCircles : ℝ)) * (9/10)) 0,
        ((numCircles - k : ℕ) : ℚ) * as * 2) := by
  have hlen : k < (List.range (numCircles + 1)).reverse.length := by
    rw [List.length_reverse, List.length_range]
    omega
  rw [ringCalls, ringIndices, List.get?_eq_getElem?, List.getElem?_map,
    List.getElem?_eq_getElem hlen, List.getElem_reverse, List.getElem_range]
  simp only [List.length_reverse, List.length_range, Option.map_some']
  congr 2

/-! ### Claim theorems -/

/-- Claim C8: every invocation of the scene generator, whatever the canvas
dimensions and random draws, creates exactly 2000 arc objects and exactly
1000 star objects. -/
theorem init_counts (w h : ℚ) (ρ : InitRand) :
    (init w h ρ).arcs.length = 2000 ∧ (init w h ρ).stars.length = 1000 := by
  constructor
  · rw [init_arcs_length]
    rfl
  · rw [init_stars_def, initStars, List.length_map, List.length_range]

/-- Claim C4: after generation the arc list is sorted by descending angular
length — for any indices `i < j`, the length at `j` is at most the length
at `i`. -/
theorem init_arcs_sorted_desc (w h : ℚ) (ρ : InitRand) (i j : ℕ) (hij : i < j)
    (hj : j < (init w h ρ).arcs.length) :
    ((init w h ρ).arcs.get ⟨j, hj⟩).len ≤
      ((init w h ρ).arcs.get ⟨i, Nat.lt_trans hij hj⟩).len := by
  have hs : ((init w h ρ).arcs).Sorted lenGE := by
    rw [init_arcs_def, initArcs]
    exact sortLen_sorted _
  exact hs.rel_get_of_lt (Fin.mk_lt_mk.mpr hij)

/-- Witness for C4 at the all-zeros random tape, indices 0 and 1. -/
theorem init_arcs_sorted_desc_witness :
    0 < 1 ∧
    ((init 800 600 sampleRand).arcs.get ⟨1, sample_arcs_one_lt⟩).len ≤
      ((init 800 600 sampleRand).arcs.get
        ⟨0, Nat.lt_trans Nat.zero_lt_one sample_arcs_one_lt⟩).len :=
  ⟨Nat.zero_lt_one,
    init_arcs_sorted_desc 800 600 sampleRand 0 1 Nat.zero_lt_one
      sample_arcs_one_lt⟩

/-- Claim C7: the palette hue is periodic in the shift argument with period 1 —
the hue components at `shift` and `shift + 1` differ by an integer. -/
theorem colorMap_hue_periodic (baseHue hueRange amt shift : ℝ) :
    ∃ k : ℤ, (colorMap baseHue hueRange amt (shift + 1)).1 =
      (colorMap baseHue hueRange amt shift).1 + k := by
  refine ⟨1 + jsTrunc (baseHue + amt * hueRange + shift) -
    jsTrunc (baseHue + amt * hueRange + (shift + 1)), ?_⟩
  simp only [colorMap, jsMod1]
  push_cast
  ring

/-- Counterexample to Claim C3 as stated: at `baseHue = 1/10`,
`hueRange = -1/2` (magnitude 1/2 ∈ [0.2, 0.7)), `amt = 1`, `shift = 0`, the
JavaScript remainder makes the hue negative (`-2/5`), so it is neither the
mathematical residue mod 1 nor in `[0, 1)`. -/
theorem colorMap_hue_negative_cx :
    (colorMap (1/10) (-(1/2)) 1 0).1 = -(2/5) ∧
    ¬ (0 ≤ (colorMap (1/10) (-(1/2)) 1 0).1) ∧
    (colorMap (1/10) (-(1/2)) 1 0).1 ≠
      Int.fract ((1/10 : ℝ) + 1 * (-(1/2)) + 0) := by
  have h1 : (colorMap (1/10) (-(1/2)) 1 0).1 = -(2/5) := by
    have harg : ((1:ℝ)/10 + 1 * (-(1/2)) + 0) = -(2/5) := by norm_num
    simp only [colorMap, jsMod1, jsTrunc, harg]
    rw [if_neg (by norm_num : ¬ (0:ℝ) ≤ -(2/5))]
    norm_num
  refine ⟨h1, ?_, ?_⟩
  · rw [h1]
    norm_num
  · rw [h1]
    norm_num [Int.fract]

/-- Claim C3 (amended): the hue component is the JavaScript remainder of
`baseHue + amt*hueRange + shift` by 1, so it lies in `(-1, 1)`; whenever that
sum is non-negative (in particular whenever `hueRange ≥ 0`) it equals the
mathematical residue `Int.fract` and lies in `[0, 1)`. -/
theorem colorMap_hue_range (baseHue hueRange amt shift : ℝ)
    (hb0 : 0 ≤ baseHue) (hb1 : baseHue < 1)
    (hm0 : 1/5 ≤ |hueRange|) (hm1 : |hueRange| < 7/10) :
    -1 < (colorMap baseHue hueRange amt shift).1 ∧
    (colorMap baseHue hueRange amt shift).1 < 1 ∧
    (0 ≤ baseHue + amt * hueRange + shift →
      (colorMap baseHue hueRange amt shift).1 =
        Int.fract (baseHue + amt * hueRange + shift) ∧
      0 ≤ (colorMap baseHue hueRange amt shift).1) := by
  refine ⟨neg_one_lt_jsMod1 _, jsMod1_lt_one _, fun hnn => ?_⟩
  have he : (colorMap baseHue hueRange amt shift).1 =
      Int.fract (baseHue + amt * hueRange + shift) := jsMod1_of_nonneg _ hnn
  refine ⟨he, ?_⟩
  rw [he]
  exact Int.fract_nonneg _

/-- Witness for C3 (amended) at `baseHue = 0`, `hueRange = 1/2`, `amt = 0`,
`shift = 0`. -/
theorem colorMap_hue_range_witness :
    (0 ≤ (0:ℝ)) ∧ ((0:ℝ) < 1) ∧ (1/5 ≤ |(1/2 : ℝ)|) ∧ (|(1/2 : ℝ)| < 7/10) ∧
    (-1 < (colorMap 0 (1/2) 0 0).1 ∧
     (colorMap 0 (1/2) 0 0).1 < 1 ∧
     (0 ≤ (0:ℝ) + 0 * (1/2) + 0 →
       (colorMap 0 (1/2) 0 0).1 = Int.fract ((0:ℝ) + 0 * (1/2) + 0) ∧
       0 ≤ (colorMap 0 (1/2) 0 0).1)) :=
  ⟨le_refl 0, by norm_num,
    by rw [abs_of_pos] <;> norm_num,
    by rw [abs_of_pos] <;> norm_num,
    colorMap_hue_range 0 (1/2) 0 0 (le_refl 0) (by norm_num)
      (by rw [abs_of_pos] <;> norm_num)
      (by rw [abs_of_pos] <;> norm_num)⟩

/-- Counterexample to Claim C6 as stated: with `numCircles = 70` the
background loop `for (let i = numCircles; i >= 0; i--)` draws 71 filled
circles, not 70. -/
theorem ringCalls_count_cx : (ringCalls 70 1 0 0).length ≠ 70 := by
  rw [ringCalls_length]
  omega

/-- Claim C6 (amended): the background pass draws exactly `numCircles + 1`
filled circles — ring indices `numCircles` down to `0`, outermost inward, the
last one degenerate with zero diameter — and the `k`-th drawn circle has ring
index `numCircles - k`, fill color `colorMap(0.9·(index/numCircles))` and
diameter `index·arcSize·2`. -/
theorem ringCalls_spec (numCircles : ℕ) (as bh hr : ℚ) (k : ℕ)
    (hk : k ≤ numCircles) :
    (ringCalls numCircles as bh hr).length = numCircles + 1 ∧
    (ringCalls numCircles as bh hr).get? k =
      some (colorMap (bh : ℝ) (hr : ℝ)
        ((((numCircles - k : ℕ) : ℝ) / (numCircles : ℝ)) * (9/10)) 0,
        ((numCircles - k : ℕ) : ℚ) * as * 2) :=
  ⟨ringCalls_length numCircles as bh hr, ringCalls_get numCircles as bh hr k hk⟩

/-- Witness for C6 (amended) at `numCircles = 2`, `k = 0`. -/
theorem ringCalls_spec_witness :
    0 ≤ 2 ∧
    ((ringCalls 2 1 0 0).length = 2 + 1 ∧
     (ringCalls 2 1 0 0).get? 0 =
       some (colorMap ((0:ℚ) : ℝ) ((0:ℚ) : ℝ)
         ((((2 - 0 : ℕ) : ℝ) / ((2:ℕ) : ℝ)) * (9/10)) 0,
         ((2 - 0 : ℕ) : ℚ) * 1 * 2)) :=
  ⟨Nat.zero_le 2, ringCalls_spec 2 1 0 0 0 (Nat.zero_le 2)⟩

/-- Claim C9: for a canvas of 800 by 600 the scene radius is `0.45*600 = 270`,
the ring thickness is `270/numCircles`, and every generated arc's stored
radius (`bucket * arcSize` with `bucket ∈ [0, numCircles)`) lies in
`[0, 270]`. -/
theorem init_radius_arc_radius (nc : ℕ) (h1 : 70 ≤ nc) (h2 : nc < 120)
    (variance bh hr : ℚ) (r : ArcRand) (h3 : 0 ≤ r.rBucket)
    (h4 : r.rBucket < 1) :
    radius 800 600 = 270 ∧
    arcSize 800 600 nc = 270 / nc ∧
    0 ≤ (genArc nc (arcSize 800 600 nc) variance bh hr r).radius ∧
    (genArc nc (arcSize 800 600 nc) variance bh hr r).radius ≤ 270 := by
  have hnc : 0 < nc := lt_of_lt_of_le (by norm_num) h1
  have hncq : (0:ℚ) < (nc : ℚ) := by exact_mod_cast hnc
  have hrad : radius 800 600 = 270 := by
    rw [radius]
    norm_num [min_def]
  have harc : arcSize 800 600 nc = 270 / nc := by rw [arcSize, hrad]
  have hb0 : (0:ℚ) ≤ ((arcBucket nc r.rBucket : ℤ) : ℚ) := by
    exact_mod_cast arcBucket_nonneg nc r.rBucket h3
  have hblt : ((arcBucket nc r.rBucket : ℤ) : ℚ) < (nc : ℚ) := by
    exact_mod_cast arcBucket_lt nc hnc r.rBucket h3 h4
  have hgen : (genArc nc (arcSize 800 600 nc) variance bh hr r).radius =
      ((arcBucket nc r.rBucket : ℤ) : ℚ) * (270 / nc) := by
    simp only [genArc]
    rw [harc]
  refine ⟨hrad, harc, ?_, ?_⟩
  · rw [hgen]
    exact mul_nonneg hb0 (by positivity)
  · rw [hgen]
    have hstep : ((arcBucket nc r.rBucket : ℤ) : ℚ) * (270 / nc) ≤
        (nc : ℚ) * (270 / nc) :=
      mul_le_mul_of_nonneg_right (le_of_lt hblt) (by positivity)
    have hcan : (nc : ℚ) * (270 / nc) = 270 := by
      field_simp
    linarith

/-- Witness for C9 at `numCircles = 70` and the all-zeros arc draw. -/
theorem init_radius_arc_radius_witness :
    70 ≤ 70 ∧ 70 < 120 ∧ 0 ≤ zeroArcRand.rBucket ∧ zeroArcRand.rBucket < 1 ∧
    (radius 800 600 = 270 ∧
     arcSize 800 600 70 = 270 / (70:ℕ) ∧
     0 ≤ (genArc 70 (arcSize 800 600 70) 0 0 0 zeroArcRand).radius ∧
     (genArc 70 (arcSize 800 600 70) 0 0 0 zeroArcRand).radius ≤ 270) :=
  ⟨le_refl 70, by norm_num, le_refl 0, by norm_num [zeroArcRand],
    init_radius_arc_radius 70 (le_refl 70) (by norm_num) 0 0 0 zeroArcRand
      (le_refl 0) (by norm_num [zeroArcRand])⟩

/-- Counterexample to Claim C1 as stated: with bucket draw 0 (radius bucket 0)
and length coin 0 (< 0.2, the sliver branch) the arc's angular length is
`1/(TAU*0)`, i.e. JavaScript `Infinity` — not a finite real, refuting
"every arc's angular length is a finite non-negative real". -/
theorem genArc_len_infinity_cx :
    (genArc 100 1 (1/10) 0 (1/4) zeroArcRand).len = ⊤ ∧
    ∀ x : ℝ, (genArc 100 1 (1/10) 0 (1/4) zeroArcRand).len ≠ (x : WithTop ℝ) := by
  have hb : arcBucket 100 zeroArcRand.rBucket = 0 := by
    rw [arcBucket, rInt]
    norm_num [zeroArcRand, min_def, max_def]
  have h : (genArc 100 1 (1/10) 0 (1/4) zeroArcRand).len = ⊤ := by
    simp only [genArc, hb]
    norm_num [zeroArcRand]
  refine ⟨h, fun x => ?_⟩
  rw [h]
  exact fun hc => WithTop.coe_ne_top hc.symm

/-- Claim C1 (amended): every generated arc's angular length is exactly one
of: JavaScript `Infinity` (the probability-0.2 sliver branch when the bucket
is 0), the finite positive sliver `1/(2π·bucket)` (the sliver branch when the
bucket is at least 1), or a finite value in `[0, π/2]` (the `random(PI/2)`
branch); so lengths are non-negative but not always finite. -/
theorem genArc_len_cases (nc : ℕ) (hnc : 0 < nc) (as variance bh hr : ℚ)
    (r : ArcRand) (hb0 : 0 ≤ r.rBucket) (hb1 : r.rBucket < 1)
    (hl0 : 0 ≤ r.rLen) (hl1 : r.rLen < 1) :
    (r.rCoin < 1/5 ∧ arcBucket nc r.rBucket = 0 ∧
      (genArc nc as variance bh hr r).len = ⊤) ∨
    (r.rCoin < 1/5 ∧ 0 < arcBucket nc r.rBucket ∧
      (genArc nc as variance bh hr r).len =
        ((1 / (2 * Real.pi * ((arcBucket nc r.rBucket : ℤ) : ℝ)) : ℝ) :
          WithTop ℝ) ∧
      (0:ℝ) < 1 / (2 * Real.pi * ((arcBucket nc r.rBucket : ℤ) : ℝ))) ∨
    (¬ (r.rCoin < 1/5) ∧ ∃ x : ℝ,
      (genArc nc as variance bh hr r).len = (x : WithTop ℝ) ∧
      0 ≤ x ∧ x ≤ Real.pi / 2) := by
  by_cases hc : r.rCoin < 1/5
  · by_cases hz : arcBucket nc r.rBucket = 0
    · left
      refine ⟨hc, hz, ?_⟩
      simp only [genArc, hz]
      rw [if_pos hc]
      norm_num
    · right
      left
      have hpos : 0 < arcBucket nc r.rBucket :=
        lt_of_le_of_ne (arcBucket_nonneg nc r.rBucket hb0) (Ne.symm hz)
      refine ⟨hc, hpos, ?_, ?_⟩
      · simp only [genArc]
        rw [if_pos hc, if_neg hz]
      · have hbr : (0:ℝ) < ((arcBucket nc r.rBucket : ℤ) : ℝ) := by
          exact_mod_cast hpos
        have hden : (0:ℝ) < 2 * Real.pi * ((arcBucket nc r.rBucket : ℤ) : ℝ) :=
          mul_pos (mul_pos two_pos Real.pi_pos) hbr
        exact one_div_pos.mpr hden
  · right
    right
    refine ⟨hc, (r.rLen : ℝ) * (Real.pi / 2), ?_, ?_, ?_⟩
    · simp only [genArc]
      rw [if_neg hc]
    · have h0 : (0:ℝ) ≤ (r.rLen : ℝ) := by exact_mod_cast hl0
      exact mul_nonneg h0 (by positivity)
    · have hl : (r.rLen : ℝ) ≤ 1 := by exact_mod_cast le_of_lt hl1
      calc (r.rLen : ℝ) * (Real.pi / 2) ≤ 1 * (Real.pi / 2) :=
            mul_le_mul_of_nonneg_right hl (by positivity)
        _ = Real.pi / 2 := one_mul _

/-- Witness for C1 (amended) at `numCircles = 100` and the all-zeros draw. -/
theorem genArc_len_cases_witness :
    0 < 100 ∧ 0 ≤ zeroArcRand.rBucket ∧ zeroArcRand.rBucket < 1 ∧
    0 ≤ zeroArcRand.rLen ∧ zeroArcRand.rLen < 1 ∧
    ((zeroArcRand.rCoin < 1/5 ∧ arcBucket 100 zeroArcRand.rBucket = 0 ∧
        (genArc 100 1 0 0 0 zeroArcRand).len = ⊤) ∨
     (zeroArcRand.rCoin < 1/5 ∧ 0 < arcBucket 100 zeroArcRand.rBucket ∧
        (genArc 100 1 0 0 0 zeroArcRand).len =
          ((1 / (2 * Real.pi * ((arcBucket 100 zeroArcRand.rBucket : ℤ) : ℝ)) :
            ℝ) : WithTop ℝ) ∧
        (0:ℝ) < 1 / (2 * Real.pi *
          ((arcBucket 100 zeroArcRand.rBucket : ℤ) : ℝ))) ∨
     (¬ (zeroArcRand.rCoin < 1/5) ∧ ∃ x : ℝ,
        (genArc 100 1 0 0 0 zeroArcRand).len = (x : WithTop ℝ) ∧
        0 ≤ x ∧ x ≤ Real.pi / 2)) :=
  ⟨by norm_num, le_refl 0, by norm_num [zeroArcRand], le_refl 0,
    by norm_num [zeroArcRand],
    genArc_len_cases 100 (by norm_num) 1 0 0 0 zeroArcRand (le_refl 0)
      (by norm_num [zeroArcRand]) (le_refl 0) (by norm_num [zeroArcRand])⟩

/-! ### The tick relation between a scene and its advanced successor -/

theorem tickPlanetsAux_forall₂ {R : Planet → Planet → Prop}
    (hR : ∀ done p, R p (tickPlanet done p)) :
    ∀ (rest done0 done : List Planet), List.Forall₂ R done0 done →
      List.Forall₂ R (done0 ++ rest) (tickPlanetsAux done rest)
  | [], done0, done, h => by simpa [tickPlanetsAux] using h
  | p :: rest, done0, done, h => by
    rw [tickPlanetsAux]
    have h2 : List.Forall₂ R (done0 ++ [p]) (done ++ [tickPlanet done p]) :=
      List.rel_append h (List.Forall₂.cons (hR done p) List.Forall₂.nil)
    have h3 := tickPlanetsAux_forall₂ hR rest (done0 ++ [p])
      (done ++ [tickPlanet done p]) h2
    simpa using h3

theorem tickPlanets_forall₂ {R : Planet → Planet → Prop}
    (hR : ∀ done p, R p (tickPlanet done p)) (ps : List Planet) :
    List.Forall₂ R ps (tickPlanets ps) := by
  have h := tickPlanetsAux_forall₂ hR ps [] [] List.Forall₂.nil
  simpa [tickPlanets] using h

/-- Claim C5: one invocation of the frame renderer advances every arc's and
every planet's `angle` by exactly that object's own `speed`, and leaves every
other stored field of arcs (color, length, radius, speed) and planets (hue,
length, orbital radius, speed, target) unchanged, as well as every star's
entire record.  Applying this to the post-tick scene again gives the second
successive tick, each adding exactly one `speed` increment. -/
theorem draw_tick_advances_angles (noise : ℚ → ℚ → ℝ) (w h : ℚ) (f : ℕ)
    (m : Pointer) (s : Scene) :
    List.Forall₂ (fun a a2 : Arc => a2.angle = a.angle + (a.speed : ℝ) ∧
        a2.col = a.col ∧ a2.len = a.len ∧ a2.radius = a.radius ∧
        a2.speed = a.speed)
      s.arcs (draw noise w h f m s).2.arcs ∧
    List.Forall₂ (fun p p2 : Planet => p2.angle = p.angle + (p.speed : ℝ) ∧
        p2.hue = p.hue ∧ p2.len = p.len ∧ p2.radius = p.radius ∧
        p2.speed = p.speed ∧ p2.target = p.target)
      s.planets (draw noise w h f m s).2.planets ∧
    (draw noise w h f m s).2.stars = s.stars := by
  have harc : (draw noise w h f m s).2.arcs = s.arcs.map tickArc := rfl
  have hpl : (draw noise w h f m s).2.planets = tickPlanets s.planets := rfl
  have hst : (draw noise w h f m s).2.stars = s.stars := rfl
  refine ⟨?_, ?_, hst⟩
  · rw [harc, List.forall₂_map_right_iff]
    exact List.forall₂_same.mpr (fun a _ => ⟨rfl, rfl, rfl, rfl, rfl⟩)
  · rw [hpl]
    exact tickPlanets_forall₂ (fun done p => ⟨rfl, rfl, rfl, rfl, rfl, rfl⟩)
      s.planets

/-- Claim C10: the frame renderer is deterministic — with the same noise
field, canvas size, frame counter, pointer state and scene state, two
invocations of `draw` issue the identical sequence of drawing calls and
produce identical post-tick scenes.  `draw` consumes no random source. -/
theorem draw_deterministic (noise : ℚ → ℚ → ℝ) (w h : ℚ) (f1 f2 : ℕ)
    (m1 m2 : Pointer) (s1 s2 : Scene) (hf : f1 = f2) (hm : m1 = m2)
    (hs : s1 = s2) :
    draw noise w h f1 m1 s1 = draw noise w h f2 m2 s2 := by
  subst hf
  subst hm
  subst hs
  rfl

/-- Witness for C10 at a concrete zero noise field, pointer and scene. -/
theorem draw_deterministic_witness :
    draw (fun _ _ => 0) 800 600 0 ⟨false, 0, 0⟩ sampleScene =
      draw (fun _ _ => 0) 800 600 0 ⟨false, 0, 0⟩ sampleScene :=
  draw_deterministic (fun _ _ => 0) 800 600 0 0 ⟨false, 0, 0⟩ ⟨false, 0, 0⟩
    sampleScene sampleScene rfl rfl rfl

/-! ### Planet-target wellformedness -/

theorem planetTargetIdx_lt (L : ℕ) (hL : 0 < L) (u : ℚ) (h0 : 0 ≤ u)
    (h1 : u < 1) : (rInt u 0 (L : ℚ)).toNat < L := by
  have hmin : min ((L : ℕ) : ℚ) 0 = 0 := min_eq_right (by positivity)
  have hmax : max ((L : ℕ) : ℚ) 0 = (L : ℚ) := max_eq_left (by positivity)
  have hlt : rInt u 0 (L : ℚ) < (L : ℤ) := by
    refine rInt_lt u 0 (L : ℚ) (L : ℤ) ?_ ?_ h0 h1
    · rw [hmax]
      norm_num
    · rw [hmin, hmax]
      exact_mod_cast hL
  omega

theorem genPlanet_targetBefore (sceneR cl : ℚ) (np : ℕ) (ps : List Planet)
    (i : ℕ) (r : PlanetRand) (h0 : 0 ≤ r.rTargetIdx)
    (h1 : r.rTargetIdx < 1) :
    targetBefore (genPlanet sceneR cl np ps i r) ps.length := by
  rw [targetBefore]
  by_cases hcond : 0 < ps.length ∧ r.rTargetCoin < 1/2
  · right
    refine ⟨(rInt r.rTargetIdx 0 (ps.length : ℚ)).toNat, ?_,
      planetTargetIdx_lt ps.length hcond.1 r.rTargetIdx h0 h1⟩
    simp only [genPlanet, decide_eq_true_eq]
    rw [if_pos hcond]
  · left
    simp only [genPlanet, decide_eq_true_eq]
    rw [if_neg hcond]

theorem genPlanetsAux_targetBefore (sceneR cl : ℚ) (np : ℕ)
    (r : ℕ → PlanetRand)
    (hr : ∀ n, 0 ≤ (r n).rTargetIdx ∧ (r n).rTargetIdx < 1) :
    ∀ (fuel i : ℕ) (ps : List Planet),
      (∀ k p, ps.get? k = some p → targetBefore p k) →
      ∀ k p, (genPlanetsAux sceneR cl np r ps i fuel).get? k = some p →
        targetBefore p k
  | 0, i, ps, hinv => by simpa [genPlanetsAux] using hinv
  | fuel + 1, i, ps, hinv => by
    rw [genPlanetsAux]
    refine genPlanetsAux_targetBefore sceneR cl np r hr fuel (i + 1)
      (ps ++ [genPlanet sceneR cl np ps i (r i)]) ?_
    intro k p hk
    rcases Nat.lt_trichotomy k ps.length with hlt | heq | hgt
    · rw [List.get?_eq_getElem?, List.getElem?_append_left hlt,
        ← List.get?_eq_getElem?] at hk
      exact hinv k p hk
    · subst heq
      rw [List.get?_eq_getElem?, List.getElem?_concat_length] at hk
      cases hk
      exact genPlanet_targetBefore sceneR cl np ps i (r i) (hr i).1 (hr i).2
    · exfalso
      have hlen : (ps ++ [genPlanet sceneR cl np ps i (r i)]).length ≤ k := by
        rw [List.length_append, List.length_singleton]
        omega
      rw [List.get?_eq_getElem?, List.getElem?_eq_none hlen] at hk
      cases hk

theorem chainToCenter_of_inv (ps : List Planet)
    (hinv : ∀ k p, ps.get? k = some p → targetBefore p k) :
    ∀ (fuel i : ℕ), i ≤ fuel → chainToCenter ps fuel i = true
  | 0, i, hi => by
    have hi0 : i = 0 := Nat.le_zero.mp hi
    subst hi0
    rw [chainToCenter]
    cases hg : ps.get? 0 with
    | none => simp [hg]
    | some p =>
      rcases hinv 0 p hg with hnone | ⟨j, hj, hjlt⟩
      · simp [hg, hnone]
      · omega
  | fuel + 1, i, hi => by
    rw [chainToCenter]
    cases hg : (ps.get? i).bind Planet.target with
    | none => rfl
    | some j =>
      have hex : ∃ p, ps.get? i = some p ∧ p.target = some j := by
        cases hgi : ps.get? i with
        | none => rw [hgi] at hg; cases hg
        | some p => rw [hgi] at hg; exact ⟨p, rfl, hg⟩
      rcases hex with ⟨p, hgi, htj⟩
      rcases hinv i p hgi with hnone | ⟨j2, hj2, hlt⟩
      · rw [hnone] at htj
        cases htj
      · rw [hj2] at htj
        injection htj with hjj
        subst hjj
        exact chainToCenter_of_inv ps hinv fuel _ (by omega)

/-- Claim C2: every generated planet's target is either the scene center or a
planet generated strictly earlier (never itself, never later), and following
the target links from planet `i` reaches the center within `i` steps, so the
links are acyclic. -/
theorem planets_target_acyclic (w h : ℚ) (ρ : InitRand)
    (hr : ∀ n, 0 ≤ (ρ.planetR n).rTargetIdx ∧ (ρ.planetR n).rTargetIdx < 1) :
    ∀ i p, (init w h ρ).planets.get? i = some p →
      (p.target = none ∨ ∃ j, p.target = some j ∧ j < i) ∧
      chainToCenter (init w h ρ).planets i i = true := by
  have hinv : ∀ k p, (init w h ρ).planets.get? k = some p → targetBefore p k := by
    rw [init_planets_def, initPlanets, genPlanets]
    refine genPlanetsAux_targetBefore _ _ _ _ hr (numPlanetsOf ρ) 0 [] ?_
    intro k p hk
    cases hk
  intro i p hp
  exact ⟨hinv i p hp, chainToCenter_of_inv _ hinv i i (le_refl i)⟩

/-- Witness for C2 at the all-zeros random tape on an 800 by 600 canvas. -/
theorem planets_target_acyclic_witness :
    (∀ n, 0 ≤ (sampleRand.planetR n).rTargetIdx ∧
      (sampleRand.planetR n).rTargetIdx < 1) ∧
    (∀ i p, (init 800 600 sampleRand).planets.get? i = some p →
      (p.target = none ∨ ∃ j, p.target = some j ∧ j < i) ∧
      chainToCenter (init 800 600 sampleRand).planets i i = true) :=
  ⟨fun _ => ⟨le_refl 0, by norm_num [sampleRand, zeroPlanetRand]⟩,
    planets_target_acyclic 800 600 sampleRand
      (fun _ => ⟨le_refl 0, by norm_num [sampleRand, zeroPlanetRand]⟩)⟩

end Quasar
